import Mathlib

/-
Verification development for the conversion layer of the repository.

Part 1 (namespace Flex): the generic symbolic/native object-mapping engine
(the "flex" package).  The engine implementation itself is not present in
the source tree; only its test surface (TestGenericExpand) is.  All
definitions in this part are therefore modelled from the specification's
description of the data model (spec section 3), the Dispatch Core
(section 4.1), the Scalar Converter (section 4.2), the Container Converter
(section 4.3), the Nested Object Converter (section 4.4) and the error
design (section 7), checked against the behaviour pinned down by the
TestGenericExpand table.

Part 2 (namespace AMI): the AMI block-device mapping helpers, translated
directly from internal/service/ec2/ec2_ami.go.
-/

namespace Flex

/-- Scalar kinds of the conversion engine: string, integer, float, boolean.
Modelled from the spec: section 3 lists the primitive payload kinds
{string, 64-bit integer, double-precision float, boolean}.  Bit width is
not tracked: no claim under scrutiny depends on 64-to-32-bit narrowing. -/
inductive ScalarKind where
  | str
  | int
  | float
  | bool
deriving DecidableEq

/-- A primitive payload value.  Modelled from the spec: section 3.  Floats
are carried as an opaque bit pattern (a natural number); the engine never
computes with a float, it only moves it between representations, so the
carrier is irrelevant to every claim. -/
inductive ScalarVal where
  | str (s : String)
  | int (n : Int)
  | float (bits : Nat)
  | bool (b : Bool)
deriving DecidableEq

/-- The scalar kind of a primitive payload value. -/
def ScalarVal.kind : ScalarVal → ScalarKind
  | .str _ => .str
  | .int _ => .int
  | .float _ => .float
  | .bool _ => .bool

/-- The native zero value of a scalar kind (Go zero values: empty string,
0, 0.0, false). -/
def ScalarKind.zero : ScalarKind → ScalarVal
  | .str => .str ""
  | .int => .int 0
  | .float => .float 0
  | .bool => .bool false

mutual

/-- A symbolic (tri-state) attribute value.  Modelled from the spec:
section 3, "a tagged value with exactly one of three states" null /
unknown / known-with-payload. -/
inductive TFVal where
  | null
  | unknown
  | known (p : TFPayload)
deriving DecidableEq

/-- Payload of a known symbolic value.  Modelled from the spec: section 3,
payload is one of {scalar, ordered sequence (list), unordered sequence
(set), string-keyed map, nested symbolic object}. -/
inductive TFPayload where
  | scalar (v : ScalarVal)
  | list (es : TFVals)
  | set (es : TFVals)
  | map (es : TFEntries)
  | object (fs : SrcFields)
deriving DecidableEq

/-- Spine of a sequence of symbolic values (list/set elements). -/
inductive TFVals where
  | nil
  | cons (head : TFVal) (tail : TFVals)
deriving DecidableEq

/-- Spine of the entries of a string-keyed map of symbolic values. -/
inductive TFEntries where
  | nil
  | cons (key : String) (val : TFVal) (tail : TFEntries)
deriving DecidableEq

/-- A field value of an Expand source struct.  Modelled from the spec:
section 4.1/7 — a source field either carries a recognised symbolic value
shape (`tf`) or is some other type entirely (`unsupported`), the latter
signalling UnsupportedSourceType when it is matched to a target field. -/
inductive SrcField where
  | tf (v : TFVal)
  | unsupported
deriving DecidableEq

/-- Spine of the fields of a source struct: each field carries its
correspondence tag (the declared identifier used by the Field Resolver)
and its value. -/
inductive SrcFields where
  | nil
  | cons (name : String) (f : SrcField) (tail : SrcFields)
deriving DecidableEq

end

mutual

/-- A native (target-side) type.  Modelled from the spec: section 3 — a
plain scalar, an owning pointer signalling optionality, an ordered
sequence (Go slice), a string-keyed map, or a nested struct. -/
inductive NTy where
  | scalar (k : ScalarKind)
  | ptr (t : NTy)
  | seq (t : NTy)
  | map (t : NTy)
  | struct (fs : NTyFields)
deriving DecidableEq

/-- Spine of the declared fields of a native struct type. -/
inductive NTyFields where
  | nil
  | cons (name : String) (t : NTy) (tail : NTyFields)
deriving DecidableEq

end

mutual

/-- A native value.  Modelled from the spec: section 3.  A nil pointer,
nil sequence and nil map are distinguished from a present pointer,
present (possibly empty) sequence and present map: the spec's emptiness
invariant rests on exactly this distinction. -/
inductive NVal where
  | scalar (v : ScalarVal)
  | ptrNil
  | ptr (v : NVal)
  | seqNil
  | seq (es : NVals)
  | mapNil
  | map (es : NEntries)
  | struct (fs : NFields)
deriving DecidableEq

/-- Spine of a native sequence's elements. -/
inductive NVals where
  | nil
  | cons (head : NVal) (tail : NVals)
deriving DecidableEq

/-- Spine of a native string-keyed map's entries. -/
inductive NEntries where
  | nil
  | cons (key : String) (val : NVal) (tail : NEntries)
deriving DecidableEq

/-- Spine of a native struct value's fields. -/
inductive NFields where
  | nil
  | cons (name : String) (val : NVal) (tail : NFields)
deriving DecidableEq

end

/-- Errors a single field conversion can signal.  Modelled from the spec:
section 7 (TypeMismatch, UnsupportedSourceType, and the UnknownValue
design note).  InvalidInput is not here: section 7 reserves it for the
top level ("nil/non-pointer/non-struct source or target at the top
level"), which the type of `Expand` below reflects. -/
inductive FieldErr where
  | typeMismatch
  | unsupportedSourceType
  | unknownValue
deriving DecidableEq

/-- Errors of a whole Expand call.  Modelled from the spec: section 7. -/
inductive FlexErr where
  | invalidInput
  | typeMismatch
  | unsupportedSourceType
  | unknownValue
deriving DecidableEq

/-- Injection of field-level errors into call-level errors. -/
def FieldErr.toFlexErr : FieldErr → FlexErr
  | .typeMismatch => .typeMismatch
  | .unsupportedSourceType => .unsupportedSourceType
  | .unknownValue => .unknownValue

mutual

/-- The zero value of a native type (Go zero values: zero scalar, nil
pointer, nil slice, nil map, struct of zero fields). -/
def NTy.zero : NTy → NVal
  | .scalar k => .scalar k.zero
  | .ptr _ => .ptrNil
  | .seq _ => .seqNil
  | .map _ => .mapNil
  | .struct fs => .struct fs.zero

/-- Zero values of a native struct type's fields. -/
def NTyFields.zero : NTyFields → NFields
  | .nil => .nil
  | .cons n t rest => .cons n t.zero rest.zero

end

/-- Field Resolver on the target side: the declared type of the target
field carrying the given correspondence tag, if any.  Modelled from the
spec: section 2 (Field Resolver) and section 4.1. -/
def NTyFields.lookup (name : String) : NTyFields → Option NTy
  | .nil => none
  | .cons n t rest => if n = name then some t else NTyFields.lookup name rest

/-- Value of the named field in a native struct value, if present. -/
def NFields.lookup (name : String) : NFields → Option NVal
  | .nil => none
  | .cons n v rest => if n = name then some v else NFields.lookup name rest

/-- Whether a source struct declares a field with the given tag. -/
def SrcFields.hasName (name : String) : SrcFields → Bool
  | .nil => false
  | .cons n _ rest => n = name || SrcFields.hasName name rest

/-- Assembly of the converted target struct: every target field takes its
converted value when the conversion pass produced one for its tag, and
its zero value otherwise.  Modelled from the spec: section 3, "every
target field that has no matching source field is left at its zero value
and is not an error". -/
def buildStruct (asg : NFields) : NTyFields → NFields
  | .nil => .nil
  | .cons n t rest => .cons n ((asg.lookup n).getD t.zero) (buildStruct asg rest)

mutual

/-- Conversion of one symbolic value into a native value of the given
target type (the per-field heart of Expand).  Modelled from the spec:
section 4.2 — Null writes the native zero value of whatever the target
type is (nil pointer / zero scalar / nil container) without error;
Unknown has no native counterpart and is treated as a propagated
failure per the section 7 design note; a Known payload dispatches on its
shape. -/
def expandVal : TFVal → NTy → Except FieldErr NVal
  | .null, t => .ok t.zero
  | .unknown, _ => .error .unknownValue
  | .known p, t => expandPayload p t

/-- Dispatch of a known payload against the target type.  Modelled from
the spec: sections 4.2 (scalars: bare write for a required field, an
allocated owning pointer for an optional field, cross-kind conversion is
a TypeMismatch, never a coercion), 4.3 (list/set into a present sequence,
map into a present map, preserving list order) and 4.4 (nested object
into a struct or a freshly allocated pointer-to-struct). -/
def expandPayload : TFPayload → NTy → Except FieldErr NVal
  | .scalar sv, .scalar k => if sv.kind = k then .ok (.scalar sv) else .error .typeMismatch
  | .scalar sv, .ptr (.scalar k) =>
    if sv.kind = k then .ok (.ptr (.scalar sv)) else .error .typeMismatch
  | .scalar _, _ => .error .typeMismatch
  | .list es, .seq t => (expandElems es t).map NVal.seq
  | .list _, _ => .error .typeMismatch
  | .set es, .seq t => (expandElems es t).map NVal.seq
  | .set _, _ => .error .typeMismatch
  | .map es, .map t => (expandEntries es t).map NVal.map
  | .map _, _ => .error .typeMismatch
  | .object fs, .struct tf => (expandAssignments fs tf).map (fun asg => .struct (buildStruct asg tf))
  | .object fs, .ptr (.struct tf) =>
    (expandAssignments fs tf).map (fun asg => .ptr (.struct (buildStruct asg tf)))
  | .object _, _ => .error .typeMismatch

/-- Elementwise conversion of a list/set's elements into native sequence
elements, in order.  Modelled from the spec: section 4.3, "element order
is preserved exactly; each element is converted with the Scalar or Nested
Object Converter per its element type". -/
def expandElems : TFVals → NTy → Except FieldErr NVals
  | .nil, _ => .ok .nil
  | .cons v vs, t =>
    match expandVal v t with
    | .error e => .error e
    | .ok nv =>
      match expandElems vs t with
      | .error e => .error e
      | .ok nvs => .ok (.cons nv nvs)

/-- Entrywise conversion of a symbolic map's entries: keys pass through
unchanged, values recurse.  Modelled from the spec: section 4.3. -/
def expandEntries : TFEntries → NTy → Except FieldErr NEntries
  | .nil, _ => .ok .nil
  | .cons k v rest, t =>
    match expandVal v t with
    | .error e => .error e
    | .ok nv =>
      match expandEntries rest t with
      | .error e => .error e
      | .ok nrest => .ok (.cons k nv nrest)

/-- Conversion of one matched source field.  Modelled from the spec:
sections 4.1/7 — a matched source value implementing none of the
recognised symbolic-value shapes signals UnsupportedSourceType. -/
def expandSrcField : SrcField → NTy → Except FieldErr NVal
  | .tf v, t => expandVal v t
  | .unsupported, _ => .error .unsupportedSourceType

/-- The conversion pass over a struct pair: each source field whose tag
resolves to a target field is converted against that field's declared
type; source fields with no matching target field are silently ignored.
Modelled from the spec: sections 4.1 and 3 (projection, not validation;
any conversion error aborts the whole call; section 8 notes the result
does not depend on field declaration order). -/
def expandAssignments : SrcFields → NTyFields → Except FieldErr NFields
  | .nil, _ => .ok .nil
  | .cons name f rest, tf =>
    match NTyFields.lookup name tf with
    | none => expandAssignments rest tf
    | some t =>
      match expandSrcField f t with
      | .error e => .error e
      | .ok v =>
        match expandAssignments rest tf with
        | .error e => .error e
        | .ok rest2 => .ok (.cons name v rest2)

end

/-- Flatten direction of the Scalar Converter.  Modelled from the spec:
section 4.2 — reading a nil native pointer produces Null; reading a
present value (bare or through a non-nil pointer) produces Known(value).
A non-scalar native value is outside the Scalar Converter's domain. -/
def flattenScalarVal : NVal → Except FieldErr TFVal
  | .scalar sv => .ok (.known (.scalar sv))
  | .ptrNil => .ok .null
  | .ptr v => flattenScalarVal v
  | _ => .error .typeMismatch

/-- The `source any` argument of Expand, as classified by the Dispatch
Core.  Modelled from the spec: section 4.1 — a nil interface, a struct, a
non-nil pointer to a struct, a nil pointer to a struct (treated as "no
fields available"), or some non-struct value. -/
inductive GoSrc where
  | nil
  | struct (fs : SrcFields)
  | ptrStruct (fs : SrcFields)
  | ptrStructNil
  | other
deriving DecidableEq

/-- The `target any` argument of Expand.  Modelled from the spec: section
4.1 — a nil interface, a non-pointer value, a pointer to an addressable
struct of the given declared type (the pointee starting at its zero
value), or a pointer to a non-struct. -/
inductive GoTgt where
  | nil
  | nonPtr
  | ptrStruct (tf : NTyFields)
  | ptrOther
deriving DecidableEq

/-- Whether the target argument is a pointer. -/
def GoTgt.isPtr : GoTgt → Bool
  | .ptrStruct _ => true
  | .ptrOther => true
  | _ => false

/-- Whether the target argument is a pointer to a struct. -/
def GoTgt.isPtrToStruct : GoTgt → Bool
  | .ptrStruct _ => true
  | _ => false

/-- Whether the source argument is a struct after transparent pointer
dereference (a nil pointer to a struct counts: the spec treats it as a
struct with no fields available). -/
def GoSrc.isStructAfterDeref : GoSrc → Bool
  | .struct _ => true
  | .ptrStruct _ => true
  | .ptrStructNil => true
  | _ => false

/-- The Expand entry point of the Dispatch Core.  Modelled from the spec:
section 4.1 — source must be a non-nil struct or pointer-to-struct,
target a non-nil pointer to a struct, InvalidInput otherwise; a nil
source pointer leaves every target field at its zero value without
error; otherwise the engine drives one pass over the struct pair.  On
success the value returned is the fully converted target struct (the
pointee after mutation). -/
def Expand (src : GoSrc) (tgt : GoTgt) : Except FlexErr NVal :=
  match tgt with
  | .nil => .error .invalidInput
  | .nonPtr => .error .invalidInput
  | .ptrOther => .error .invalidInput
  | .ptrStruct tf =>
    match src with
    | .nil => .error .invalidInput
    | .other => .error .invalidInput
    | .ptrStructNil => .ok (.struct tf.zero)
    | .struct fs =>
      match expandAssignments fs tf with
      | .error e => .error e.toFlexErr
      | .ok asg => .ok (.struct (buildStruct asg tf))
    | .ptrStruct fs =>
      match expandAssignments fs tf with
      | .error e => .error e.toFlexErr
      | .ok asg => .ok (.struct (buildStruct asg tf))

/-- Number of elements of a symbolic sequence. -/
def TFVals.length : TFVals → Nat
  | .nil => 0
  | .cons _ vs => vs.length + 1

/-- Indexed access into a symbolic sequence. -/
def TFVals.get? : TFVals → Nat → Option TFVal
  | .nil, _ => none
  | .cons v _, 0 => some v
  | .cons _ vs, n + 1 => TFVals.get? vs n

/-- Number of elements of a native sequence. -/
def NVals.length : NVals → Nat
  | .nil => 0
  | .cons _ vs => vs.length + 1

/-- Indexed access into a native sequence. -/
def NVals.get? : NVals → Nat → Option NVal
  | .nil, _ => none
  | .cons v _, 0 => some v
  | .cons _ vs, n + 1 => NVals.get? vs n

end Flex

deriving instance DecidableEq for Except

namespace Flex

theorem toFlexErr_ne_invalidInput (e : FieldErr) : e.toFlexErr ≠ FlexErr.invalidInput := by
  cases e <;> simp [FieldErr.toFlexErr]

theorem buildStruct_lookup (name : String) (asg : NFields) :
    (tf : NTyFields) →
    NFields.lookup name (buildStruct asg tf)
      = (NTyFields.lookup name tf).map (fun t => (NFields.lookup name asg).getD t.zero)
  | .nil => by simp [buildStruct, NFields.lookup, NTyFields.lookup]
  | .cons n t rest => by
    by_cases h : n = name
    · subst h
      simp [buildStruct, NFields.lookup, NTyFields.lookup]
    · simp [buildStruct, NFields.lookup, NTyFields.lookup, h, buildStruct_lookup name asg rest]

theorem buildStruct_nil : (tf : NTyFields) → buildStruct .nil tf = tf.zero
  | .nil => rfl
  | .cons n t rest => by
    simp [buildStruct, NFields.lookup, NTyFields.zero, buildStruct_nil rest]

theorem expandAssignments_lookup_none (name : String) :
    (fs : SrcFields) → (tf : NTyFields) → (asg : NFields) →
    SrcFields.hasName name fs = false → expandAssignments fs tf = .ok asg →
    NFields.lookup name asg = none
  | .nil, _, asg, _, h2 => by
    simp [expandAssignments] at h2
    simp [← h2, NFields.lookup]
  | .cons n f rest, tf, asg, h1, h2 => by
    simp [SrcFields.hasName] at h1
    obtain ⟨hne, hrest⟩ := h1
    simp only [expandAssignments] at h2
    cases hl : NTyFields.lookup n tf with
    | none =>
      simp only [hl] at h2
      exact expandAssignments_lookup_none name rest tf asg hrest h2
    | some t =>
      simp only [hl] at h2
      cases hv : expandSrcField f t with
      | error e => simp [hv] at h2
      | ok v =>
        simp only [hv] at h2
        cases hr : expandAssignments rest tf with
        | error e => simp [hr] at h2
        | ok rest2 =>
          simp only [hr] at h2
          cases h2
          simp only [NFields.lookup, if_neg hne]
          exact expandAssignments_lookup_none name rest tf rest2 hrest hr

theorem expandElems_spec : (es : TFVals) → (t : NTy) → (nvs : NVals) →
    expandElems es t = .ok nvs →
    NVals.length nvs = TFVals.length es ∧
    ∀ i v, TFVals.get? es i = some v →
      ∃ nv, NVals.get? nvs i = some nv ∧ expandVal v t = .ok nv
  | .nil, t, nvs, h => by
    simp [expandElems] at h
    refine ⟨by simp [← h, NVals.length, TFVals.length], ?_⟩
    intro i v hv
    simp [TFVals.get?] at hv
  | .cons v vs, t, nvs, h => by
    simp only [expandElems] at h
    cases hv : expandVal v t with
    | error e => simp [hv] at h
    | ok nv =>
      simp only [hv] at h
      cases hr : expandElems vs t with
      | error e => simp [hr] at h
      | ok nvs2 =>
        simp only [hr] at h
        cases h
        obtain ⟨ih1, ih2⟩ := expandElems_spec vs t nvs2 hr
        refine ⟨by simp [NVals.length, TFVals.length, ih1], ?_⟩
        intro i w hw
        cases i with
        | zero =>
          simp only [TFVals.get?, Option.some_inj] at hw
          subst hw
          exact ⟨nv, by simp [NVals.get?], hv⟩
        | succ j =>
          simp only [TFVals.get?] at hw
          obtain ⟨nw, hnw1, hnw2⟩ := ih2 j w hw
          exact ⟨nw, by simpa [NVals.get?] using hnw1, hnw2⟩

/-- Claim C1, as frozen, is refuted at one concrete matched scalar pair:
a symbolic string field matched to a required (non-pointer) native string
field, with x = Null.  Expand writes the native zero value (the empty
string, per the Scalar Converter's contract for Null on a required
field), and Flatten of a bare native value always produces Known, so the
round trip returns Known("") and not Null. -/
theorem claim1_counterexample :
    (expandVal TFVal.null (NTy.scalar ScalarKind.str)).bind flattenScalarVal
        = Except.ok (TFVal.known (TFPayload.scalar (ScalarVal.str ""))) ∧
    (Except.ok (TFVal.known (TFPayload.scalar (ScalarVal.str ""))) : Except FieldErr TFVal)
      ≠ Except.ok TFVal.null := by
  exact ⟨rfl, by decide⟩

/-- Claim C1 (amended): for every matched scalar field pair,
Flatten(Expand(x)) == x when x is Known (whether the native field is
required or optional), and when x is Null provided the native field is
pointer-typed (optional); a Null expanded into a required (non-pointer)
native field is the one lossy case, flattening back to Known(zero). -/
theorem claim1_roundtrip_lossless (k : ScalarKind) (sv : ScalarVal) (h : sv.kind = k) :
    (expandVal (.known (.scalar sv)) (.scalar k)).bind flattenScalarVal
        = .ok (.known (.scalar sv)) ∧
    (expandVal (.known (.scalar sv)) (.ptr (.scalar k))).bind flattenScalarVal
        = .ok (.known (.scalar sv)) ∧
    (expandVal .null (.ptr (.scalar k))).bind flattenScalarVal = .ok .null := by
  refine ⟨?_, ?_, ?_⟩ <;>
    simp [expandVal, expandPayload, h, flattenScalarVal, NTy.zero, Except.bind]

theorem claim1_witness :
    (expandVal (.known (.scalar (.str "a"))) (.scalar .str)).bind flattenScalarVal
        = .ok (.known (.scalar (.str "a"))) :=
  (claim1_roundtrip_lossless .str (.str "a") rfl).1

/-- Claim C2: for every container-typed field pair, a present-but-empty
source container (empty list, set or map) converts to a present-but-empty
target container (a non-nil sequence or map), never the nil one; and a
Null source container converts to the native zero value (nil sequence or
map), not an empty one. -/
theorem claim2_container_emptiness (t : NTy) :
    expandVal (.known (.list .nil)) (.seq t) = .ok (.seq .nil) ∧
    expandVal (.known (.set .nil)) (.seq t) = .ok (.seq .nil) ∧
    expandVal (.known (.map .nil)) (.map t) = .ok (.map .nil) ∧
    expandVal .null (.seq t) = .ok .seqNil ∧
    expandVal .null (.map t) = .ok .mapNil ∧
    NVal.seq .nil ≠ NVal.seqNil ∧
    NVal.map .nil ≠ NVal.mapNil :=
  ⟨rfl, rfl, rfl, rfl, rfl, by decide, by decide⟩

/-- Claim C3: Expand returns InvalidInput exactly when a top-level
constraint is violated (source and target both nil, target not a pointer,
source not a struct after pointer dereference, or target not pointing to
a struct); for a valid empty struct pair it succeeds and leaves the
target at its zero value. -/
theorem claim3_invalid_input_iff :
    (∀ (src : GoSrc) (tgt : GoTgt),
      Expand src tgt = .error .invalidInput ↔
        ((src = GoSrc.nil ∧ tgt = GoTgt.nil) ∨ tgt.isPtr = false ∨
          src.isStructAfterDeref = false ∨ tgt.isPtrToStruct = false)) ∧
    Expand (.struct .nil) (.ptrStruct .nil) = .ok (.struct .nil) ∧
    Expand (.ptrStruct .nil) (.ptrStruct .nil) = .ok (.struct .nil) := by
  refine ⟨?_, rfl, rfl⟩
  intro src tgt
  cases tgt with
  | nil =>
    cases src <;> simp [Expand, GoTgt.isPtr]
  | nonPtr =>
    cases src <;> simp [Expand, GoTgt.isPtr]
  | ptrOther =>
    cases src <;> simp [Expand, GoTgt.isPtr, GoTgt.isPtrToStruct]
  | ptrStruct tf =>
    cases src with
    | nil =>
      simp [Expand, GoSrc.isStructAfterDeref, GoTgt.isPtr, GoTgt.isPtrToStruct]
    | other =>
      simp [Expand, GoSrc.isStructAfterDeref, GoTgt.isPtr, GoTgt.isPtrToStruct]
    | ptrStructNil =>
      simp [Expand, GoSrc.isStructAfterDeref, GoTgt.isPtr, GoTgt.isPtrToStruct]
    | struct fs =>
      cases h : expandAssignments fs tf with
      | ok asg =>
        simp [Expand, h, GoSrc.isStructAfterDeref, GoTgt.isPtr, GoTgt.isPtrToStruct]
      | error e =>
        simp [Expand, h, toFlexErr_ne_invalidInput e, GoSrc.isStructAfterDeref,
          GoTgt.isPtr, GoTgt.isPtrToStruct]
    | ptrStruct fs =>
      cases h : expandAssignments fs tf with
      | ok asg =>
        simp [Expand, h, GoSrc.isStructAfterDeref, GoTgt.isPtr, GoTgt.isPtrToStruct]
      | error e =>
        simp [Expand, h, toFlexErr_ne_invalidInput e, GoSrc.isStructAfterDeref,
          GoTgt.isPtr, GoTgt.isPtrToStruct]

/-- Claim C4: a Known symbolic scalar matched to a native scalar field is
written as an allocated, owning, non-nil pointer when the target field is
pointer-typed and as the bare payload when it is not; a Null leaves a
pointer-typed target field at nil and a bare target field at its zero
value, without error.  Stated both for the Scalar Converter and through a
full Expand of a one-field struct pair. -/
theorem claim4_scalar_expand (sv : ScalarVal) (k : ScalarKind) (h : sv.kind = k)
    (name : String) :
    expandVal (.known (.scalar sv)) (.scalar k) = .ok (.scalar sv) ∧
    expandVal (.known (.scalar sv)) (.ptr (.scalar k)) = .ok (.ptr (.scalar sv)) ∧
    expandVal .null (.scalar k) = .ok (.scalar k.zero) ∧
    expandVal .null (.ptr (.scalar k)) = .ok .ptrNil ∧
    Expand (.struct (.cons name (.tf (.known (.scalar sv))) .nil))
        (.ptrStruct (.cons name (.ptr (.scalar k)) .nil))
      = .ok (.struct (.cons name (.ptr (.scalar sv)) .nil)) ∧
    Expand (.struct (.cons name (.tf (.known (.scalar sv))) .nil))
        (.ptrStruct (.cons name (.scalar k) .nil))
      = .ok (.struct (.cons name (.scalar sv) .nil)) := by
  refine ⟨?_, ?_, ?_, ?_, ?_, ?_⟩ <;>
    simp [Expand, expandAssignments, NTyFields.lookup, expandSrcField, expandVal,
      expandPayload, h, buildStruct, NFields.lookup, NTy.zero]

theorem claim4_witness :
    Expand (.struct (.cons "name" (.tf (.known (.scalar (.str "a")))) .nil))
        (.ptrStruct (.cons "name" (.ptr (.scalar .str)) .nil))
      = .ok (.struct (.cons "name" (.ptr (.scalar (.str "a"))) .nil)) :=
  (claim4_scalar_expand (.str "a") .str rfl "name").2.2.2.2.1

/-- Claim C5: list conversion preserves element order exactly — a
successful conversion yields a sequence of the same length whose i-th
element is the conversion of the i-th source element — and concretely the
list ["a","b"] expands into both a bare-string sequence and a
pointer-to-string sequence of exactly two elements in source order, the
latter two being non-nil owning pointers. -/
theorem claim5_list_order :
    (∀ (es : TFVals) (t : NTy) (nvs : NVals), expandElems es t = .ok nvs →
      NVals.length nvs = TFVals.length es ∧
      ∀ i v, TFVals.get? es i = some v →
        ∃ nv, NVals.get? nvs i = some nv ∧ expandVal v t = .ok nv) ∧
    expandVal (.known (.list (.cons (.known (.scalar (.str "a")))
        (.cons (.known (.scalar (.str "b"))) .nil)))) (.seq (.scalar .str))
      = .ok (.seq (.cons (.scalar (.str "a")) (.cons (.scalar (.str "b")) .nil))) ∧
    expandVal (.known (.list (.cons (.known (.scalar (.str "a")))
        (.cons (.known (.scalar (.str "b"))) .nil)))) (.seq (.ptr (.scalar .str)))
      = .ok (.seq (.cons (.ptr (.scalar (.str "a")))
          (.cons (.ptr (.scalar (.str "b"))) .nil))) :=
  ⟨fun es t nvs h => expandElems_spec es t nvs h, rfl, rfl⟩

theorem claim5_witness :
    NVals.length (.cons (.scalar (.str "a")) (.cons (.scalar (.str "b")) .nil))
      = TFVals.length (.cons (.known (.scalar (.str "a")))
          (.cons (.known (.scalar (.str "b"))) .nil)) :=
  (claim5_list_order.1
    (.cons (.known (.scalar (.str "a"))) (.cons (.known (.scalar (.str "b"))) .nil))
    (.scalar .str)
    (.cons (.scalar (.str "a")) (.cons (.scalar (.str "b")) .nil)) rfl).1

/-- Claim C6: a symbolic scalar whose kind differs from the native
field's scalar kind (for example a string into an integer-typed field)
is a TypeMismatch error, never a coercion, whether the native field is
bare or pointer-typed; through a full Expand the call aborts with
TypeMismatch. -/
theorem claim6_type_mismatch (sv : ScalarVal) (k : ScalarKind) (h : sv.kind ≠ k)
    (name : String) :
    expandPayload (.scalar sv) (.scalar k) = .error .typeMismatch ∧
    expandPayload (.scalar sv) (.ptr (.scalar k)) = .error .typeMismatch ∧
    Expand (.struct (.cons name (.tf (.known (.scalar sv))) .nil))
        (.ptrStruct (.cons name (.scalar k) .nil))
      = .error .typeMismatch := by
  refine ⟨?_, ?_, ?_⟩ <;>
    simp [Expand, expandAssignments, NTyFields.lookup, expandSrcField, expandVal,
      expandPayload, h, FieldErr.toFlexErr]

theorem claim6_witness :
    Expand (.struct (.cons "name" (.tf (.known (.scalar (.str "a")))) .nil))
        (.ptrStruct (.cons "name" (.scalar .int) .nil))
      = .error .typeMismatch :=
  (claim6_type_mismatch (.str "a") .int (by decide) "name").2.2

/-- Claim C7: a matched source field whose value implements none of the
recognised symbolic-value shapes makes the conversion fail with
UnsupportedSourceType, both at the single-field converter and through a
full Expand call. -/
theorem claim7_unsupported_source (name : String) (t : NTy) :
    expandSrcField .unsupported t = .error .unsupportedSourceType ∧
    Expand (.struct (.cons name .unsupported .nil)) (.ptrStruct (.cons name t .nil))
      = .error .unsupportedSourceType := by
  refine ⟨rfl, ?_⟩
  simp [Expand, expandAssignments, NTyFields.lookup, expandSrcField, FieldErr.toFlexErr]

/-- Claim C8: conversion is a projection, not a validation — a source
field with no matching target field is silently ignored (removing it
does not change the result of Expand at all), a target field with no
matching source field is left at its zero value on success, and a source
struct with no fields at all converts without error into the all-zero
target struct. -/
theorem claim8_projection :
    (∀ (name : String) (f : SrcField) (fs : SrcFields) (tf : NTyFields),
      NTyFields.lookup name tf = none →
      Expand (.struct (.cons name f fs)) (.ptrStruct tf)
        = Expand (.struct fs) (.ptrStruct tf)) ∧
    (∀ (fs : SrcFields) (tf : NTyFields) (name : String) (v : NVal),
      SrcFields.hasName name fs = false →
      Expand (.struct fs) (.ptrStruct tf) = .ok v →
      ∃ out, v = NVal.struct out ∧
        NFields.lookup name out = (NTyFields.lookup name tf).map NTy.zero) ∧
    (∀ tf : NTyFields, Expand (.struct .nil) (.ptrStruct tf) = .ok (.struct tf.zero)) := by
  refine ⟨?_, ?_, ?_⟩
  · intro name f fs tf h
    simp [Expand, expandAssignments, h]
  · intro fs tf name v h1 h2
    simp only [Expand] at h2
    cases ha : expandAssignments fs tf with
    | error e => simp [ha] at h2
    | ok asg =>
      simp only [ha] at h2
      cases h2
      refine ⟨buildStruct asg tf, rfl, ?_⟩
      have hnone := expandAssignments_lookup_none name fs tf asg h1 ha
      rw [buildStruct_lookup name asg tf, hnone]
      simp
  · intro tf
    simp [Expand, expandAssignments, buildStruct_nil]

theorem claim8_witness :
    Expand (.struct (.cons "x" .unsupported .nil)) (.ptrStruct .nil)
      = Expand (.struct .nil) (.ptrStruct .nil) :=
  claim8_projection.1 "x" .unsupported .nil .nil rfl

end Flex

namespace AMI

/-- The Go idiom `v, ok := m[k].(string)` guarded by `ok && v != ""`: the
value survives only when the key is present with a string value that is
non-empty. -/
def optNonempty : Option String → Option String
  | some s => if s = "" then none else some s
  | none => none

/-- The Go idiom `v, ok := m[k].(int)` guarded by `ok && v != 0`. -/
def optNonzero : Option Int → Option Int
  | some n => if n = 0 then none else some n
  | none => none

/-- A Terraform configuration map for one `ebs_block_device` block, as the
expanders read it (internal/service/ec2/ec2_ami.go).  Each field is the
result of the `m[key].(T)` lookup-and-assert: `none` models a missing key
or a failed type assertion. -/
structure AMIEBSTfMap where
  delete_on_termination : Option Bool
  device_name : Option String
  encrypted : Option Bool
  iops : Option Int
  outpost_arn : Option String
  snapshot_id : Option String
  throughput : Option Int
  volume_size : Option Int
  volume_type : Option String
deriving DecidableEq

/-- A Terraform configuration map for one `ephemeral_block_device` block. -/
structure AMIEphemeralTfMap where
  device_name : Option String
  virtual_name : Option String
deriving DecidableEq

/-- One element of the Go `[]interface{}` fed to the list expanders: a
map of the expected shape, a typed nil map (the assertion succeeds but
the per-map expander returns nil), or a value of some other type (the
assertion fails and the element is skipped). -/
inductive TfListItem (α : Type) where
  | tfMap (m : α)
  | nilMap
  | notMap
deriving DecidableEq

/-- The relevant fields of the AWS SDK ec2.EbsBlockDevice struct; each is
a pointer in Go, `none` modelling nil. -/
structure EbsBlockDevice where
  DeleteOnTermination : Option Bool
  Encrypted : Option Bool
  Iops : Option Int
  SnapshotId : Option String
  Throughput : Option Int
  VolumeSize : Option Int
  VolumeType : Option String
  OutpostArn : Option String
deriving DecidableEq

/-- The relevant fields of the AWS SDK ec2.BlockDeviceMapping struct. -/
structure BlockDeviceMapping where
  DeviceName : Option String
  VirtualName : Option String
  Ebs : Option EbsBlockDevice
deriving DecidableEq

/-- Translated from expandBlockDeviceMappingForAMIEBSBlockDevice
(internal/service/ec2/ec2_ami.go, lines 589 to 634).  A nil tfMap yields
nil; otherwise an EbsBlockDevice is always allocated and SnapshotId wins
over Encrypted: the encrypted flag is copied only when no non-empty
snapshot id is present. -/
def expandBlockDeviceMappingForAMIEBSBlockDevice :
    Option AMIEBSTfMap → Option BlockDeviceMapping
  | none => none
  | some m =>
    let snap := optNonempty m.snapshot_id
    some (BlockDeviceMapping.mk
      (optNonempty m.device_name)
      none
      (some (EbsBlockDevice.mk
        m.delete_on_termination
        (if snap.isSome then none else m.encrypted)
        (optNonzero m.iops)
        snap
        (optNonzero m.throughput)
        (optNonzero m.volume_size)
        (optNonempty m.volume_type)
        (optNonempty m.outpost_arn))))

/-- Translated from expandBlockDeviceMappingsForAMIEBSBlockDevice
(internal/service/ec2/ec2_ami.go, lines 636 to 660).  An input of length
zero returns nil immediately; otherwise the Go loop appends to a slice
that starts nil, so the result is nil exactly when every element was
skipped. -/
def expandBlockDeviceMappingsForAMIEBSBlockDevice
    (tfList : List (TfListItem AMIEBSTfMap)) : Option (List BlockDeviceMapping) :=
  if tfList.isEmpty then none
  else
    let apiObjects := tfList.filterMap fun item =>
      match item with
      | .tfMap m => expandBlockDeviceMappingForAMIEBSBlockDevice (some m)
      | .nilMap => expandBlockDeviceMappingForAMIEBSBlockDevice none
      | .notMap => none
    if apiObjects.isEmpty then none else some apiObjects

/-- Translated from flattenBlockDeviceMappingForAMIEBSBlockDevice
(internal/service/ec2/ec2_ami.go, lines 662 to 710): each non-nil SDK
pointer field becomes a present map key. -/
def flattenBlockDeviceMappingForAMIEBSBlockDevice :
    Option BlockDeviceMapping → Option AMIEBSTfMap
  | none => none
  | some a =>
    match a.Ebs with
    | none => none
    | some ebs =>
      some (AMIEBSTfMap.mk
        ebs.DeleteOnTermination
        a.DeviceName
        ebs.Encrypted
        ebs.Iops
        ebs.OutpostArn
        ebs.SnapshotId
        ebs.Throughput
        ebs.VolumeSize
        ebs.VolumeType)

/-- Translated from flattenBlockDeviceMappingsForAMIEBSBlockDevice
(internal/service/ec2/ec2_ami.go, lines 712 to 732): nil input yields
nil; nil elements and mappings without an Ebs member are skipped. -/
def flattenBlockDeviceMappingsForAMIEBSBlockDevice
    (apiObjects : List (Option BlockDeviceMapping)) : Option (List AMIEBSTfMap) :=
  if apiObjects.isEmpty then none
  else
    let tfList := apiObjects.filterMap fun a? =>
      match a? with
      | none => none
      | some a =>
        match a.Ebs with
        | none => none
        | some _ => flattenBlockDeviceMappingForAMIEBSBlockDevice (some a)
    if tfList.isEmpty then none else some tfList

/-- Translated from expandBlockDeviceMappingForAMIEphemeralBlockDevice
(internal/service/ec2/ec2_ami.go, lines 734 to 750). -/
def expandBlockDeviceMappingForAMIEphemeralBlockDevice :
    Option AMIEphemeralTfMap → Option BlockDeviceMapping
  | none => none
  | some m =>
    some (BlockDeviceMapping.mk
      (optNonempty m.device_name)
      (optNonempty m.virtual_name)
      none)

/-- Translated from expandBlockDeviceMappingsForAMIEphemeralBlockDevice
(internal/service/ec2/ec2_ami.go, lines 752 to 776). -/
def expandBlockDeviceMappingsForAMIEphemeralBlockDevice
    (tfList : List (TfListItem AMIEphemeralTfMap)) : Option (List BlockDeviceMapping) :=
  if tfList.isEmpty then none
  else
    let apiObjects := tfList.filterMap fun item =>
      match item with
      | .tfMap m => expandBlockDeviceMappingForAMIEphemeralBlockDevice (some m)
      | .nilMap => expandBlockDeviceMappingForAMIEphemeralBlockDevice none
      | .notMap => none
    if apiObjects.isEmpty then none else some apiObjects

/-- Translated from flattenBlockDeviceMappingForAMIEphemeralBlockDevice
(internal/service/ec2/ec2_ami.go, lines 778 to 794). -/
def flattenBlockDeviceMappingForAMIEphemeralBlockDevice :
    Option BlockDeviceMapping → Option AMIEphemeralTfMap
  | none => none
  | some a => some (AMIEphemeralTfMap.mk a.DeviceName a.VirtualName)

/-- Translated from flattenBlockDeviceMappingsForAMIEphemeralBlockDevice
(internal/service/ec2/ec2_ami.go, lines 796 to 816): nil input yields
nil; nil elements and mappings that DO carry an Ebs member are skipped. -/
def flattenBlockDeviceMappingsForAMIEphemeralBlockDevice
    (apiObjects : List (Option BlockDeviceMapping)) : Option (List AMIEphemeralTfMap) :=
  if apiObjects.isEmpty then none
  else
    let tfList := apiObjects.filterMap fun a? =>
      match a? with
      | none => none
      | some a =>
        match a.Ebs with
        | some _ => none
        | none => flattenBlockDeviceMappingForAMIEphemeralBlockDevice (some a)
    if tfList.isEmpty then none else some tfList

/-- Translated from the ebs_block_device validation loop of
resourceAMICreate (internal/service/ec2/ec2_ami.go, lines 330 to 353):
the create handler returns the diagnostic "can't set both 'snapshot_id'
and 'encrypted'" exactly when some element is a map carrying a non-empty
snapshot_id together with encrypted=true.  The surrounding CRUD glue
(schema.ResourceData plumbing, the RegisterImage call) is out of scope. -/
def resourceAMICreateRejectsEBS (tfList : List (TfListItem AMIEBSTfMap)) : Bool :=
  tfList.any fun item =>
    match item with
    | .tfMap m =>
      let encrypted := m.encrypted.getD false
      let snapshot := (optNonempty m.snapshot_id).getD ""
      (snapshot != "") && encrypted
    | .nilMap => false
    | .notMap => false

/-- Claim C9: a non-empty snapshot_id forces Ebs.SnapshotId to that
string with Ebs.Encrypted left nil; the encrypted flag is copied into the
output only when snapshot_id is absent or empty; and the create handler
rejects any block-device map that sets both a non-empty snapshot id and
encrypted=true. -/
theorem claim9_snapshot_encrypted :
    (∀ (m : AMIEBSTfMap) (s : String), m.snapshot_id = some s → s ≠ "" →
      ∃ b, expandBlockDeviceMappingForAMIEBSBlockDevice (some m) = some b ∧
        ∃ e, b.Ebs = some e ∧ e.SnapshotId = some s ∧ e.Encrypted = none) ∧
    (∀ m : AMIEBSTfMap, optNonempty m.snapshot_id = none →
      ∃ b, expandBlockDeviceMappingForAMIEBSBlockDevice (some m) = some b ∧
        ∃ e, b.Ebs = some e ∧ e.Encrypted = m.encrypted) ∧
    (∀ (tfList : List (TfListItem AMIEBSTfMap)) (m : AMIEBSTfMap) (s : String),
      TfListItem.tfMap m ∈ tfList → m.snapshot_id = some s → s ≠ "" →
      m.encrypted = some true → resourceAMICreateRejectsEBS tfList = true) := by
  refine ⟨?_, ?_, ?_⟩
  · intro m s h1 h2
    refine ⟨_, rfl, _, rfl, ?_, ?_⟩
    · show optNonempty m.snapshot_id = some s
      rw [h1]
      simp [optNonempty, h2]
    · show (if (optNonempty m.snapshot_id).isSome then none else m.encrypted) = none
      rw [h1]
      simp [optNonempty, h2]
  · intro m h
    refine ⟨_, rfl, _, rfl, ?_⟩
    show (if (optNonempty m.snapshot_id).isSome then none else m.encrypted) = m.encrypted
    rw [h]
    simp
  · intro tfList m s hmem h1 h2 h3
    refine List.any_eq_true.mpr ⟨TfListItem.tfMap m, hmem, ?_⟩
    simp [h1, h2, h3, optNonempty]

theorem claim9_witness :
    resourceAMICreateRejectsEBS
      [TfListItem.tfMap
        (AMIEBSTfMap.mk none none (some true) none none (some "snap-0123") none none none)]
      = true :=
  claim9_snapshot_encrypted.2.2
    [TfListItem.tfMap
      (AMIEBSTfMap.mk none none (some true) none none (some "snap-0123") none none none)]
    (AMIEBSTfMap.mk none none (some true) none none (some "snap-0123") none none none)
    "snap-0123" (by simp) rfl (by decide) rfl

/-- Claim C10: each of the four AMI block-device list helpers maps a
length-zero input (Go nil and empty slices both have length zero) to a
nil result, never to an empty non-nil slice. -/
theorem claim10_empty_returns_nil :
    expandBlockDeviceMappingsForAMIEBSBlockDevice [] = none ∧
    flattenBlockDeviceMappingsForAMIEBSBlockDevice [] = none ∧
    expandBlockDeviceMappingsForAMIEphemeralBlockDevice [] = none ∧
    flattenBlockDeviceMappingsForAMIEphemeralBlockDevice [] = none :=
  ⟨rfl, rfl, rfl, rfl⟩

end AMI
